import Mathlib

/-!
Shallow embedding of the App state machine of `src/interface/app.rs`
(trakt-tv-updater). External collaborators (Data Manager, Remote Client,
Local Store) are injected as parameters: each App method that calls one
takes the outcome of that call as an argument. Machine integers are
modelled over Nat/Int: `as i32` / `as u16` casts wrap (two's complement),
and arithmetic (`usize` subtraction/addition, `i32` subtraction) is
checked — an overflow is the Rust debug-mode panic, modelled as `none`.
-/

namespace Trakt

/-- `n as u16` for `n : usize`: truncation mod 2^16. -/
def toU16 (n : Nat) : Nat := n % 65536

/-- `n as i32` for `n : usize`: truncation mod 2^32, reinterpreted signed. -/
def toI32 (n : Nat) : Int :=
  let r := n % 4294967296
  if r < 2147483648 then (r : Int) else (r : Int) - 4294967296

/-- Checked `usize` addition: panics (`none`) past `usize::MAX`. -/
def usizeAdd (a b : Nat) : Option Nat :=
  if a + b < 18446744073709551616 then some (a + b) else none

/-- Checked `usize` subtraction: panics (`none`) on underflow. -/
def usizeSub (a b : Nat) : Option Nat :=
  if b ≤ a then some (a - b) else none

/-- Checked `i32` subtraction: panics (`none`) when the mathematical
difference leaves the `i32` range. -/
def i32Sub (a b : Int) : Option Int :=
  if -2147483648 ≤ a - b ∧ a - b < 2147483648 then some (a - b) else none

/-- `AppMode` from `app.rs`. -/
inductive AppMode
  | Initializing
  | MainView
  | Querying
  | HelpWindow
  | SeasonView
deriving DecidableEq, Repr

/-- `UserStatusShow` (from `models`, as used in `app.rs`). -/
inductive UserStatusShow
  | Todo
  | Watched
  | Unwatched
deriving DecidableEq, Repr

/-- `UserStatusSeason` (from `models`, as used in `app.rs`). -/
inductive UserStatusSeason
  | Unfilled
  | OnRelease
  | OtherDate
deriving DecidableEq, Repr

/-- The fields of `TraktShow` that `app.rs` reads or writes. -/
structure TraktShow where
  imdb_id : String
  overview : Option String
  network : Option String
  no_episodes : Option Int
  trakt_id : Option Int
  user_status : UserStatusShow
deriving DecidableEq, Repr

/-- The fields of `TraktSeason` that `app.rs` reads or writes. -/
structure TraktSeason where
  id : Int
  user_status : UserStatusSeason
deriving DecidableEq, Repr

/-- The fields of the remote `query_detailed` show payload that
`enter_show_details` consumes. -/
structure ShowDetails where
  overview : String
  network : String
  aired_episodes : Nat
  ids_trakt : Nat
deriving DecidableEq, Repr

/-- A remote season record; `enter_show_details` only tests emptiness of
the returned season vector. -/
structure ApiSeason where
  id : Int
deriving DecidableEq, Repr

/-- Error outcomes of fallible App methods (`eyre::Result` errors). -/
inductive AppError
  | dataManagerLost
  | apiError
  | storeError
deriving DecidableEq, Repr

/-- The `App` struct: `running`, `mode`, the show table selection
(`table_state.selected()`), the scrollbar state (`position`,
`content_length`, both `u16`), the show list, and the season view
(`show_view.seasons`, `show_view.season_table_state.selected()`). -/
structure App where
  running : Bool
  mode : AppMode
  table_state : Option Nat
  scroll_position : Nat
  scroll_content_length : Nat
  shows : List TraktShow
  seasons : List TraktSeason
  season_table_state : Option Nat
deriving DecidableEq, Repr

/-- The status cycle inside `toggle_watch_status`:
Todo → Watched → Unwatched → Todo. -/
def cycleShowStatus : UserStatusShow → UserStatusShow
  | .Todo => .Watched
  | .Watched => .Unwatched
  | .Unwatched => .Todo

/-- The status cycle inside `toggle_season_watch_status`:
Unfilled → OnRelease → OtherDate → Unfilled. -/
def cycleSeasonStatus : UserStatusSeason → UserStatusSeason
  | .Unfilled => .OnRelease
  | .OnRelease => .OtherDate
  | .OtherDate => .Unfilled

/-- `App::tick`, with the Data Manager `query("spurious")` outcome passed
in (`none` is the worker-lost signal). Returns the post-state and the
method's `eyre::Result`. -/
def App.tick (a : App) (queryResult : Option (List TraktShow)) :
    App × Except AppError Unit :=
  if a.shows.isEmpty then
    match queryResult with
    | none => (a, .error .dataManagerLost)
    | some items =>
      let a := { a with scroll_content_length := toU16 items.length,
                        shows := items }
      let a := if a.mode = AppMode.Initializing
               then { a with mode := AppMode.MainView } else a
      (a, .ok ())
  else (a, .ok ())

/-- `App::next`: forward navigation of the show table; `none` is a panic. -/
def App.next (a : App) (step : Nat) : Option App := do
  let i ← match a.table_state with
    | some i => do
        let s ← usizeAdd i step
        let m ← usizeSub a.shows.length 1
        pure (min s m)
    | none => pure 0
  pure { a with table_state := some i, scroll_position := toU16 i }

/-- `App::prev`: backward navigation of the show table; `none` is a panic. -/
def App.prev (a : App) (step : Nat) : Option App := do
  let i ← match a.table_state with
    | some i => do
        let d ← i32Sub (toI32 i) (toI32 step)
        pure (max d 0).toNat
    | none => usizeSub a.shows.length 1
  pure { a with table_state := some i, scroll_position := toU16 i }

/-- `App::season_next`: forward navigation of the season table. The
`seasons.len() - 1` bound is computed before the match; `none` is a
panic. -/
def App.season_next (a : App) (step : Nat) : Option App := do
  let mx ← usizeSub a.seasons.length 1
  let i ← match a.season_table_state with
    | some i => do
        let s ← usizeAdd i step
        pure (min s mx)
    | none => pure 0
  pure { a with season_table_state := some i }

/-- `App::season_prev`: backward navigation of the season table; `none`
is a panic. -/
def App.season_prev (a : App) (step : Nat) : Option App := do
  let i ← match a.season_table_state with
    | some i => do
        let d ← i32Sub (toI32 i) (toI32 step)
        pure (max d 0).toNat
    | none => pure 0
  pure { a with season_table_state := some i }

/-- `App::toggle_watch_status`, with the `t_db::update_show` outcome
passed in. `none` is the indexing panic `self.shows[i]`. -/
def App.toggle_watch_status (a : App) (store : Except Unit Unit) :
    Option (App × Except AppError Unit) :=
  match a.table_state with
  | none => some (a, .ok ())
  | some i =>
    if h : i < a.shows.length then
      let sh := a.shows.get ⟨i, h⟩
      let sh := { sh with user_status := cycleShowStatus sh.user_status }
      let a := { a with shows := a.shows.set i sh }
      match store with
      | .ok _ => some (a, .ok ())
      | .error _ => some (a, .error .storeError)
    else none

/-- `App::toggle_season_watch_status`, with the `t_db::update_season`
outcome passed in. `none` is the indexing panic
`self.show_view.seasons[i]`. -/
def App.toggle_season_watch_status (a : App) (store : Except Unit Unit) :
    Option (App × Except AppError Unit) :=
  match a.season_table_state with
  | none => some (a, .ok ())
  | some i =>
    if h : i < a.seasons.length then
      let se := a.seasons.get ⟨i, h⟩
      let se := { se with user_status := cycleSeasonStatus se.user_status }
      let a := { a with seasons := a.seasons.set i se }
      match store with
      | .ok _ => some (a, .ok ())
      | .error _ => some (a, .error .storeError)
    else none

/-- The in-place update of the selected show inside
`enter_show_details`: merge the remote overview/network/episode count,
then assign `trakt_id` from the remote result only when it is `None`. -/
def detailMerge (sh : TraktShow) (d : ShowDetails) : TraktShow :=
  let sh := { sh with
    overview := some d.overview,
    network := some d.network,
    no_episodes := some (toI32 d.aired_episodes) }
  if sh.trakt_id = none
  then { sh with trakt_id := some (toI32 d.ids_trakt) }
  else sh

/-- `App::enter_show_details`, with the outcomes of the external calls
passed in: `api` is `t_api::query_detailed`, `storeShow` is the
discarded `t_db::update_show`, `reconcile` is
`t_db::update_show_with_seasons`. `none` is the indexing panic
`self.shows[i]`. -/
def App.enter_show_details (a : App)
    (api : Except Unit (ShowDetails × List ApiSeason))
    (storeShow : Except Unit Unit)
    (reconcile : Except Unit (List TraktSeason)) :
    Option (App × Except AppError Unit) :=
  if a.mode = AppMode.MainView then
    match a.table_state with
    | none => some (a, .ok ())
    | some i =>
      if h : i < a.shows.length then
        match api with
        | .error _ => some ({ a with running := false }, .error .apiError)
        | .ok (details, apiSeasons) =>
          let sh := detailMerge (a.shows.get ⟨i, h⟩) details
          let _ := storeShow
          let a := { a with shows := a.shows.set i sh }
          match reconcile with
          | .error _ => some (a, .error .storeError)
          | .ok seas =>
            let a := { a with seasons := seas }
            let a := if apiSeasons.isEmpty then a
                     else { a with season_table_state := some 0 }
            some ({ a with mode := AppMode.SeasonView }, .ok ())
      else none
  else some (a, .ok ())

/-- Bool test that a table selection is in bounds for its backing list
(the spec's selection invariant, §3). -/
def selWithinB (sel : Option Nat) (len : Nat) : Bool :=
  match sel with
  | none => true
  | some i => i < len

/-- One show-table navigation call: `true` is `next`, `false` is `prev`. -/
def navStep (a : App) (m : Bool × Nat) : Option App :=
  if m.1 then a.next m.2 else a.prev m.2

/-- A sequence of show-table navigation calls; `none` as soon as one
panics. -/
def runNav (a : App) (ms : List (Bool × Nat)) : Option App :=
  ms.foldlM navStep a

/-- A concrete show record for witnesses. -/
def sampleShow : TraktShow :=
  { imdb_id := "tt0903747", overview := none, network := none,
    no_episodes := none, trakt_id := none, user_status := .Todo }

/-- A concrete season record for witnesses. -/
def sampleSeason : TraktSeason := { id := 1, user_status := .Unfilled }

/-- A concrete remote season record for witnesses. -/
def sampleApiSeason : ApiSeason := { id := 1 }

/-- A concrete remote detail payload for witnesses. -/
def sampleDetails : ShowDetails :=
  { overview := "o", network := "n", aired_episodes := 10, ids_trakt := 42 }

/-- The freshly constructed `App` (`App::new`): running, Initializing,
empty lists, no selections. -/
def app0 : App :=
  { running := true, mode := .Initializing, table_state := none,
    scroll_position := 0, scroll_content_length := 0, shows := [],
    seasons := [], season_table_state := none }

/-- A MainView state with five shows and index 0 selected. -/
def appFive : App :=
  { app0 with
    mode := .MainView,
    shows := [sampleShow, sampleShow, sampleShow, sampleShow, sampleShow],
    table_state := some 0 }

/-- A MainView state with one show selected and a stale season
selection left over from a previous SeasonView visit. -/
def appStaleSel : App :=
  { app0 with
    mode := .MainView, shows := [sampleShow],
    table_state := some 0, seasons := [sampleSeason],
    season_table_state := some 0 }

/-- A SeasonView state whose season list is empty and nothing is
selected in it. -/
def appEmptySeasons : App :=
  { app0 with
    mode := .SeasonView, shows := [sampleShow],
    table_state := some 0 }

/-- A SeasonView state with two seasons, season index 0 selected, and a
scroll position that differs from every season index. -/
def appScroll : App :=
  { app0 with
    mode := .SeasonView,
    seasons := [sampleSeason, { id := 2, user_status := .Unfilled }],
    season_table_state := some 0, scroll_position := 5 }

/-! Helper lemmas about the machine-integer embedding. -/

theorem toI32_small (n : Nat) (h : n < 2147483648) : toI32 n = (n : Int) := by
  unfold toI32
  rw [Nat.mod_eq_of_lt (by omega), if_pos h]

theorem usizeAdd_small (a b : Nat) (h : a + b < 18446744073709551616) :
    usizeAdd a b = some (a + b) := by
  unfold usizeAdd
  rw [if_pos h]

theorem usizeSub_le (a b : Nat) (h : b ≤ a) : usizeSub a b = some (a - b) := by
  unfold usizeSub
  rw [if_pos h]

theorem i32Sub_inrange (a b : Int) (h1 : -2147483648 ≤ a - b)
    (h2 : a - b < 2147483648) : i32Sub a b = some (a - b) := by
  unfold i32Sub
  rw [if_pos ⟨h1, h2⟩]

/-- C2: cycling a show status three times is the identity, along the
cycle Todo → Watched → Unwatched → Todo, and cycling a season status
three times is the identity, along the cycle Unfilled → OnRelease →
OtherDate → Unfilled. -/
theorem status_cycles_period_three :
    (∀ s : UserStatusShow,
      cycleShowStatus (cycleShowStatus (cycleShowStatus s)) = s) ∧
    (∀ s : UserStatusSeason,
      cycleSeasonStatus (cycleSeasonStatus (cycleSeasonStatus s)) = s) ∧
    cycleShowStatus .Todo = .Watched ∧
    cycleShowStatus .Watched = .Unwatched ∧
    cycleShowStatus .Unwatched = .Todo ∧
    cycleSeasonStatus .Unfilled = .OnRelease ∧
    cycleSeasonStatus .OnRelease = .OtherDate ∧
    cycleSeasonStatus .OtherDate = .Unfilled := by
  refine ⟨fun s => ?_, fun s => ?_, rfl, rfl, rfl, rfl, rfl, rfl⟩ <;>
    cases s <;> rfl

/-- C10: with no current selection, `prev` selects `shows.len() - 1` in
unsigned arithmetic with no emptiness guard: on a non-empty show list it
selects the last index, and on an empty show list the subtraction
underflows, reaching the panic (`none`) branch of the embedding. -/
theorem prev_unguarded_no_selection (a : App) (step : Nat) :
    (a.table_state = none → a.shows = [] → a.prev step = none) ∧
    (a.table_state = none → a.shows ≠ [] →
      a.prev step = some { a with
        table_state := some (a.shows.length - 1),
        scroll_position := toU16 (a.shows.length - 1) }) := by
  constructor
  · intro h1 h2
    simp [App.prev, h1, h2, usizeSub]
  · intro h1 h2
    have hpos : 0 < a.shows.length := List.length_pos.mpr h2
    simp only [App.prev, h1]
    rw [usizeSub_le a.shows.length 1 (by omega)]
    rfl

/-- Witness for C10: the freshly constructed app has an empty show list
and no selection, and `prev 1` panics on it. -/
theorem prev_unguarded_no_selection_witness : app0.prev 1 = none :=
  (prev_unguarded_no_selection app0 1).1 rfl rfl

/-- C4: the code evaluated at the failing input. With an empty season
list, `season_next` computes `seasons.len() - 1` unguarded and the
subtraction underflows (panic branch), and `season_prev` selects index 0
rather than leaving the (empty) selection unchanged — neither is a
no-op. -/
theorem season_nav_empty_not_noop :
    appEmptySeasons.seasons = [] ∧
    appEmptySeasons.season_next 1 = none ∧
    appEmptySeasons.season_prev 1 =
      some { appEmptySeasons with season_table_state := some 0 } ∧
    { appEmptySeasons with season_table_state := some 0 } ≠
      appEmptySeasons := by
  refine ⟨rfl, by decide, by decide, by decide⟩

/-- Counterexample for C3: with 5 shows and index 0 selected, `prev`
with step 2^32 - 5 does not saturate at 0: the `as i32` cast turns the
step into -5 and the call selects index 5, which is not `< len`. -/
theorem prev_large_step_escapes_bounds :
    appFive.shows.length = 5 ∧
    (appFive.prev 4294967291).map App.table_state = some (some 5) := by
  refine ⟨rfl, by decide⟩

/-- Every single navigation call on a non-empty show list keeps the
selection in bounds, provided the list length and the step are at most
2^31 (so the usize → i32 casts in `prev` preserve values). -/
theorem navStep_in_bounds (a : App) (b : Bool) (step : Nat)
    (hne : a.shows ≠ []) (hlen : a.shows.length ≤ 2147483648)
    (hsel : selWithinB a.table_state a.shows.length = true)
    (hstep : step < 2147483648) :
    ∃ j, j < a.shows.length ∧
      navStep a (b, step) =
        some { a with table_state := some j,
                      scroll_position := toU16 j } := by
  have hpos : 0 < a.shows.length := List.length_pos.mpr hne
  cases b with
  | true =>
    cases hts : a.table_state with
    | none =>
      refine ⟨0, hpos, ?_⟩
      show a.next step = _
      simp only [App.next, hts]
      rfl
    | some i =>
      have hi : i < a.shows.length := by
        simpa [selWithinB, hts] using hsel
      refine ⟨min (i + step) (a.shows.length - 1), by omega, ?_⟩
      show a.next step = _
      simp only [App.next, hts]
      rw [usizeAdd_small i step (by omega),
        usizeSub_le a.shows.length 1 (by omega)]
      rfl
  | false =>
    cases hts : a.table_state with
    | none =>
      refine ⟨a.shows.length - 1, by omega, ?_⟩
      show a.prev step = _
      simp only [App.prev, hts]
      rw [usizeSub_le a.shows.length 1 (by omega)]
      rfl
    | some i =>
      have hi : i < a.shows.length := by
        simpa [selWithinB, hts] using hsel
      refine ⟨(max ((i : Int) - (step : Int)) 0).toNat, ?_, ?_⟩
      · rcases max_cases ((i : Int) - (step : Int)) 0 with ⟨h1, _⟩ | ⟨h1, _⟩ <;>
          rw [h1] <;> omega
      · show a.prev step = _
        simp only [App.prev, hts]
        rw [toI32_small i (by omega), toI32_small step (by omega),
          i32Sub_inrange (i : Int) (step : Int) (by omega) (by omega)]
        rfl

/-- C3 (amended): for every non-empty show list of length at most 2^31
and every sequence of `next`/`prev` calls whose steps are below 2^31,
starting from a state whose selection is absent or in bounds, no call
panics, the show list is unchanged, and after the sequence (hence after
each call) the selected index exists and is `< len`. -/
theorem nav_sequence_in_bounds (a : App) (ms : List (Bool × Nat))
    (hne : a.shows ≠ []) (hlen : a.shows.length ≤ 2147483648)
    (hsel : selWithinB a.table_state a.shows.length = true)
    (hsteps : ∀ m ∈ ms, m.2 < 2147483648) :
    ∃ a', runNav a ms = some a' ∧ a'.shows = a.shows ∧
      selWithinB a'.table_state a'.shows.length = true ∧
      (ms ≠ [] → ∃ j, a'.table_state = some j ∧ j < a'.shows.length) := by
  induction ms generalizing a with
  | nil => exact ⟨a, rfl, rfl, hsel, by simp⟩
  | cons m ms ih =>
    obtain ⟨b, step⟩ := m
    obtain ⟨j, hj, hstep⟩ :=
      navStep_in_bounds a b step hne hlen hsel
        (hsteps (b, step) (List.mem_cons_self _ _))
    have hsel1 : selWithinB
        (App.table_state { a with table_state := some j,
                                  scroll_position := toU16 j })
        (App.shows { a with table_state := some j,
                            scroll_position := toU16 j }).length = true := by
      simpa [selWithinB] using hj
    obtain ⟨a', hrun, hsh, hsel', hlast⟩ :=
      ih { a with table_state := some j, scroll_position := toU16 j }
        hne hlen hsel1 (fun m hm => hsteps m (List.mem_cons_of_mem _ hm))
    refine ⟨a', ?_, hsh, hsel', ?_⟩
    · have : runNav a ((b, step) :: ms) =
          (navStep a (b, step)).bind fun x => runNav x ms := rfl
      rw [this, hstep]
      exact hrun
    · intro _
      cases ms with
      | nil =>
        have ha' : a' = { a with table_state := some j,
                                 scroll_position := toU16 j } := by
          simpa [runNav, List.foldlM] using hrun.symm
        exact ⟨j, by rw [ha'], by rw [ha']; simpa using hj⟩
      | cons m2 ms2 => exact hlast (by simp)

/-- Witness for C3: a two-call navigation sequence on the five-show app
stays in bounds. -/
theorem nav_sequence_in_bounds_witness :
    ∃ a', runNav appFive [(true, 2), (false, 1)] = some a' ∧
      a'.shows = appFive.shows ∧
      selWithinB a'.table_state a'.shows.length = true ∧
      ([(true, 2), (false, 1)] ≠ [] →
        ∃ j, a'.table_state = some j ∧ j < a'.shows.length) :=
  nav_sequence_in_bounds appFive [(true, 2), (false, 1)]
    (by decide) (by decide) (by decide) (by decide)

/-- Counterexample for C1: the scroll extent is set to the list length
cast `as u16`, so a successful query returning 65536 shows sets the
scroll extent to 0, not to the list's length. -/
theorem tick_truncates_scroll_extent :
    (app0.tick (some (List.replicate 65536 sampleShow))).1.scroll_content_length
      = 0 ∧
    (List.replicate 65536 sampleShow).length = 65536 := by
  have hgen : ∀ L : List TraktShow, L.length = 65536 →
      (app0.tick (some L)).1.scroll_content_length = 0 := by
    intro L hL
    simp [App.tick, app0, hL, toU16]
  have hlen : (List.replicate 65536 sampleShow).length = 65536 :=
    List.length_replicate 65536 sampleShow
  exact ⟨hgen _ hlen, hlen⟩

/-- C1 (amended): when the show list is empty, a tick whose Data Manager
query returns the worker-lost signal (`None`) fails with the
data-manager error and leaves the show list empty; a tick whose query
returns a list replaces the show list with it, sets the scroll extent to
the list's length truncated `as u16`, switches Initializing to MainView
(leaving any other mode alone), and returns Ok. -/
theorem tick_first_query (a : App) (q : Option (List TraktShow))
    (h : a.shows = []) :
    (q = none → a.tick q = (a, .error .dataManagerLost) ∧
      (a.tick q).1.shows = []) ∧
    (∀ items, q = some items →
      a.tick q = ({ a with
          scroll_content_length := toU16 items.length,
          shows := items,
          mode := if a.mode = AppMode.Initializing then .MainView
                  else a.mode }, .ok ())) := by
  constructor
  · rintro rfl
    refine ⟨by simp [App.tick, h], by simp [App.tick, h]⟩
  · rintro items rfl
    by_cases hmode : a.mode = AppMode.Initializing
    · simp [App.tick, h, hmode]
    · simp [App.tick, h, hmode]

/-- Counterexample for C5: entering SeasonView for a show whose remote
season list is empty does not reset a stale season selection: the
previous `some 0` survives while the season list becomes empty, so the
selection is not `None`. -/
theorem enter_show_details_stale_selection :
    appStaleSel.season_table_state = some 0 ∧
    (appStaleSel.enter_show_details (.ok (sampleDetails, []))
        (.ok ()) (.ok [])).map
      (fun r => (r.1.season_table_state, r.1.seasons, r.1.mode, r.2)) =
      some (some 0, [], .SeasonView, .ok ()) := by
  refine ⟨rfl, rfl⟩

/-- C5 (amended): a successful `enter_show_details` selects season index
0 when the remote season list is non-empty; when the remote season list
is empty it leaves the previous season selection unchanged (so `None`
only if no earlier visit had set it). -/
theorem enter_show_details_selection (a : App) (i : Nat)
    (d : ShowDetails) (ss : List ApiSeason) (st : Except Unit Unit)
    (seas : List TraktSeason)
    (hm : a.mode = .MainView) (hs : a.table_state = some i)
    (hlt : i < a.shows.length) :
    (a.enter_show_details (.ok (d, ss)) st (.ok seas)).map
      (fun r => (r.1.season_table_state, r.1.seasons, r.1.mode, r.2)) =
      some ((if ss.isEmpty then a.season_table_state else some 0),
        seas, .SeasonView, .ok ()) := by
  cases hss : ss.isEmpty with
  | true => simp [App.enter_show_details, hm, hs, hlt, hss]
  | false => simp [App.enter_show_details, hm, hs, hlt, hss]

/-- Witness for C5: entering details with one remote season selects
season index 0. -/
theorem enter_show_details_selection_witness :
    (appStaleSel.enter_show_details (.ok (sampleDetails, [sampleApiSeason]))
        (.ok ()) (.ok [sampleSeason])).map
      (fun r => (r.1.season_table_state, r.1.seasons, r.1.mode, r.2)) =
      some ((if List.isEmpty [sampleApiSeason]
             then appStaleSel.season_table_state else some 0),
        [sampleSeason], .SeasonView, .ok ()) :=
  enter_show_details_selection appStaleSel 0 sampleDetails [sampleApiSeason]
    (.ok ()) [sampleSeason] rfl rfl (by decide)

/-- C6: when the detail lookup fails, `enter_show_details` returns the
error, sets `running := false`, and changes nothing else: the show list,
the selected show, and the season list are untouched. -/
theorem enter_show_details_failure (a : App) (i : Nat)
    (st : Except Unit Unit) (rec : Except Unit (List TraktSeason))
    (hm : a.mode = .MainView) (hs : a.table_state = some i)
    (hlt : i < a.shows.length) :
    a.enter_show_details (.error ()) st rec =
      some ({ a with running := false }, .error .apiError) := by
  simp [App.enter_show_details, hm, hs, hlt]

/-- Witness for C6: a failing lookup on a concrete MainView state. -/
theorem enter_show_details_failure_witness :
    appStaleSel.enter_show_details (.error ()) (.ok ()) (.ok []) =
      some ({ appStaleSel with running := false }, .error .apiError) :=
  enter_show_details_failure appStaleSel 0 (.ok ()) (.ok []) rfl rfl
    (by decide)

/-- C7: with nothing selected, both status-cycle operations return Ok
and change nothing; with a (valid) selection, both first advance the
in-memory status and then report the store outcome: Ok on store success,
an error on store failure — in both cases with the status already
advanced in the returned state. -/
theorem toggle_status_contract (a : App) (st : Except Unit Unit) :
    (a.table_state = none → a.toggle_watch_status st = some (a, .ok ())) ∧
    (a.season_table_state = none →
      a.toggle_season_watch_status st = some (a, .ok ())) ∧
    (∀ i, ∀ h : i < a.shows.length, a.table_state = some i →
      a.toggle_watch_status st =
        some ({ a with
          shows := a.shows.set i
            { a.shows.get ⟨i, h⟩ with
              user_status :=
                cycleShowStatus (a.shows.get ⟨i, h⟩).user_status } },
          match st with
          | .ok _ => .ok ()
          | .error _ => .error .storeError)) ∧
    (∀ i, ∀ h : i < a.seasons.length, a.season_table_state = some i →
      a.toggle_season_watch_status st =
        some ({ a with
          seasons := a.seasons.set i
            { a.seasons.get ⟨i, h⟩ with
              user_status :=
                cycleSeasonStatus (a.seasons.get ⟨i, h⟩).user_status } },
          match st with
          | .ok _ => .ok ()
          | .error _ => .error .storeError)) := by
  refine ⟨?_, ?_, ?_, ?_⟩
  · intro h
    simp [App.toggle_watch_status, h]
  · intro h
    simp [App.toggle_season_watch_status, h]
  · intro i h hs
    simp only [App.toggle_watch_status, hs]
    rw [dif_pos h]
    cases st <;> rfl
  · intro i h hs
    simp only [App.toggle_season_watch_status, hs]
    rw [dif_pos h]
    cases st <;> rfl

/-- Witness for C7: cycling the selected show with a failing store call
returns the store error with the status already advanced. -/
theorem toggle_status_contract_witness :
    appStaleSel.toggle_watch_status (.error ()) =
      some ({ appStaleSel with
        shows := appStaleSel.shows.set 0
          { appStaleSel.shows.get ⟨0, by decide⟩ with
            user_status := cycleShowStatus
              (appStaleSel.shows.get ⟨0, by decide⟩).user_status } },
        .error .storeError) :=
  (toggle_status_contract appStaleSel (.error ())).2.2.1 0 (by decide) rfl

/-- C8: on the success path of `enter_show_details`, the result does not
depend on the outcome of the swallowed `update_show` store call (so a
store failure neither propagates nor prevents reconciliation or the
SeasonView transition), and the merged show's `trakt_id` is assigned
from the remote result exactly when it was previously `None` — a present
`trakt_id` is never overwritten. -/
theorem enter_show_details_store_swallowed (a : App) (i : Nat)
    (d : ShowDetails) (ss : List ApiSeason)
    (st st2 : Except Unit Unit) (seas : List TraktSeason)
    (hm : a.mode = .MainView) (hs : a.table_state = some i)
    (hlt : i < a.shows.length) :
    a.enter_show_details (.ok (d, ss)) st (.ok seas) =
      a.enter_show_details (.ok (d, ss)) st2 (.ok seas) ∧
    a.enter_show_details (.ok (d, ss)) st (.ok seas) =
      some ({ a with
        shows := a.shows.set i (detailMerge (a.shows.get ⟨i, hlt⟩) d),
        seasons := seas,
        season_table_state := if ss.isEmpty then a.season_table_state
                              else some 0,
        mode := .SeasonView }, .ok ()) ∧
    (∀ sh : TraktShow, ∀ dd : ShowDetails,
      (sh.trakt_id = none →
        (detailMerge sh dd).trakt_id = some (toI32 dd.ids_trakt)) ∧
      (∀ t, sh.trakt_id = some t → (detailMerge sh dd).trakt_id = some t)) := by
  refine ⟨rfl, ?_, ?_⟩
  · cases hss : ss.isEmpty with
    | true => simp [App.enter_show_details, hm, hs, hlt, hss]
    | false => simp [App.enter_show_details, hm, hs, hlt, hss]
  · intro sh dd
    constructor
    · intro h
      simp [detailMerge, h]
    · intro t h
      simp [detailMerge, h]

/-- Witness for C8: merging details into a show without a catalog id
assigns the remote id. -/
theorem enter_show_details_store_swallowed_witness :
    (detailMerge sampleShow sampleDetails).trakt_id =
      some (toI32 sampleDetails.ids_trakt) :=
  ((enter_show_details_store_swallowed appStaleSel 0 sampleDetails []
      (.ok ()) (.error ()) [] rfl rfl (by decide)).2.2 sampleShow
      sampleDetails).1 rfl

/-- Inversion for `next`: a successful call only sets the selection and
the scroll position. -/
theorem next_inv (a a' : App) (step : Nat) (h : a.next step = some a') :
    ∃ i, a' = { a with table_state := some i,
                       scroll_position := toU16 i } := by
  cases hts : a.table_state with
  | none =>
    simp only [App.next, hts] at h
    exact ⟨0, by simp_all⟩
  | some i =>
    cases hA : usizeAdd i step with
    | none => simp [App.next, hts, hA] at h
    | some s =>
      cases hB : usizeSub a.shows.length 1 with
      | none => simp [App.next, hts, hA, hB] at h
      | some m =>
        simp [App.next, hts, hA, hB] at h
        exact ⟨min s m, h.symm⟩

/-- Inversion for `prev`: a successful call only sets the selection and
the scroll position. -/
theorem prev_inv (a a' : App) (step : Nat) (h : a.prev step = some a') :
    ∃ i, a' = { a with table_state := some i,
                       scroll_position := toU16 i } := by
  cases hts : a.table_state with
  | none =>
    cases hB : usizeSub a.shows.length 1 with
    | none => simp [App.prev, hts, hB] at h
    | some m =>
      simp [App.prev, hts, hB] at h
      exact ⟨m, h.symm⟩
  | some i =>
    cases hD : i32Sub (toI32 i) (toI32 step) with
    | none => simp [App.prev, hts, hD] at h
    | some d =>
      simp [App.prev, hts, hD] at h
      exact ⟨(max d 0).toNat, h.symm⟩

/-- Inversion for `season_next`: a successful call only sets the season
selection. -/
theorem season_next_inv (a a' : App) (step : Nat)
    (h : a.season_next step = some a') :
    ∃ i, a' = { a with season_table_state := some i } := by
  cases hB : usizeSub a.seasons.length 1 with
  | none => simp [App.season_next, hB] at h
  | some mx =>
    cases hts : a.season_table_state with
    | none =>
      simp [App.season_next, hB, hts] at h
      exact ⟨0, h.symm⟩
    | some i =>
      cases hA : usizeAdd i step with
      | none => simp [App.season_next, hB, hts, hA] at h
      | some s =>
        simp [App.season_next, hB, hts, hA] at h
        exact ⟨min s mx, h.symm⟩

/-- Inversion for `season_prev`: a successful call only sets the season
selection. -/
theorem season_prev_inv (a a' : App) (step : Nat)
    (h : a.season_prev step = some a') :
    ∃ i, a' = { a with season_table_state := some i } := by
  cases hts : a.season_table_state with
  | none =>
    simp only [App.season_prev, hts] at h
    exact ⟨0, by simp_all⟩
  | some i =>
    cases hD : i32Sub (toI32 i) (toI32 step) with
    | none => simp [App.season_prev, hts, hD] at h
    | some d =>
      simp [App.season_prev, hts, hD] at h
      exact ⟨(max d 0).toNat, h.symm⟩

/-- Counterexample for C9: `season_next` moves the season selection to
index 1 but leaves the scroll indicator at 5 — after this navigation
call the scroll position does not equal the newly selected index. -/
theorem season_nav_ignores_scroll :
    (appScroll.season_next 1).map
      (fun a => (a.season_table_state, a.scroll_position)) =
      some (some 1, 5) ∧ (5 : Nat) ≠ 1 := by
  refine ⟨by decide, by decide⟩

/-- C9 (amended): after every successful `next` or `prev` the scroll
position equals the newly selected show index truncated `as u16`;
`season_next` and `season_prev` never touch the scroll position. -/
theorem scroll_tracks_show_selection (a a' : App) (step : Nat) :
    ((a.next step = some a' ∨ a.prev step = some a') →
      ∃ i, a'.table_state = some i ∧ a'.scroll_position = toU16 i) ∧
    ((a.season_next step = some a' ∨ a.season_prev step = some a') →
      a'.scroll_position = a.scroll_position) := by
  constructor
  · rintro (h | h)
    · obtain ⟨i, rfl⟩ := next_inv a a' step h
      exact ⟨i, rfl, rfl⟩
    · obtain ⟨i, rfl⟩ := prev_inv a a' step h
      exact ⟨i, rfl, rfl⟩
  · rintro (h | h)
    · obtain ⟨i, rfl⟩ := season_next_inv a a' step h
      rfl
    · obtain ⟨i, rfl⟩ := season_prev_inv a a' step h
      rfl

/-- Witness for C9: a successful `next` on a concrete state leaves the
scroll position equal to the selected index. -/
theorem scroll_tracks_show_selection_witness :
    ∃ i, ({ appScroll with
              table_state := some 0,
              scroll_position := toU16 0 }).table_state = some i ∧
      ({ appScroll with
         table_state := some 0,
         scroll_position := toU16 0 }).scroll_position = toU16 i :=
  (scroll_tracks_show_selection appScroll
      { appScroll with table_state := some 0, scroll_position := toU16 0 }
      1).1 (Or.inl (by decide))

/-- Witness for C1: a first tick on the fresh app with a one-show query
result populates the list and moves to MainView. -/
theorem tick_first_query_witness :
    app0.tick (some [sampleShow]) = ({ app0 with
        scroll_content_length := toU16 [sampleShow].length,
        shows := [sampleShow],
        mode := if app0.mode = AppMode.Initializing then .MainView
                else app0.mode }, .ok ()) :=
  (tick_first_query app0 (some [sampleShow]) rfl).2 [sampleShow] rfl

end Trakt
